import Mathlib

/-!
Verification development for the Lumina camera application.

Shallow embedding of:
* the analysis bridge `src/services/geminiService.ts` (`analyzeFrame`,
  `analyzeTopology`): the external `generateContent` call is modelled by an
  abstract outcome (it either throws/rejects or returns a response whose
  `text` field is an optional string), and the platform's `JSON.parse` is
  modelled by an abstract total function `String → Option JsonValue`, where
  `none` corresponds to `JSON.parse` throwing;
* the per-frame processing pipeline `src/App.tsx` (`processFrame`,
  `initCamera`, the mount/unmount effects): the 2D-context calls issued by
  one invocation are recorded as a list of `DrawOp` values, and the pixel
  semantics of the `screen` blend used by the glow pass is modelled from the
  canvas compositing specification.

All numeric values are rationals; JavaScript numbers on the inputs involved
here (small integers, slider values, byte data) behave exactly as rationals.
-/

namespace CamTcas

/-- A minimal JSON value, the possible results of `JSON.parse`. -/
inductive JsonValue where
  | jnull
  | jbool (b : Bool)
  | jnum (q : ℚ)
  | jstr (s : String)
  | jarr (elems : List JsonValue)
  | jobj (fields : List (String × JsonValue))

/-- Property access on a parsed JSON value: `v[k]` is `none` (JS `undefined`)
when `v` is not an object or lacks the key. -/
def jfield : JsonValue → String → Option JsonValue
  | JsonValue.jobj fs, k => (fs.find? (fun p => p.1 = k)).map Prod.snd
  | _, _ => none

/-- The string `"{}"`. -/
def emptyObjText : String := "\x7b\x7d"

/-- Outcome of the external `ai.models.generateContent` call: it either
throws/rejects, or succeeds with a response whose `text` is an optional
string (`none` models JS `undefined`). -/
inductive CallOutcome where
  | throws
  | success (text : Option String)

/-- The expression `response.text || "{}"` from
`src/services/geminiService.ts` lines 23 and 44: JS `||` replaces both
`undefined` and the empty string (falsy) by `"{}"`. -/
def responseBody : Option String → String
  | none => emptyObjText
  | some s => if s = "" then emptyObjText else s

/-- The scene-analysis default returned by the `catch` branch of
`analyzeFrame` (`src/services/geminiService.ts` line 25). -/
def sceneDefault : JsonValue :=
  JsonValue.jobj
    [("luminance", JsonValue.jnum 50),
     ("colorTemp", JsonValue.jstr "Neutral"),
     ("detectedObjects", JsonValue.jarr []),
     ("suggestions", JsonValue.jstr "Awaiting input")]

/-- The topology default returned by the `catch` branch of `analyzeTopology`
(`src/services/geminiService.ts` line 46). -/
def topologyDefault : JsonValue :=
  JsonValue.jobj
    [("vertices", JsonValue.jnum 0),
     ("topologyScore", JsonValue.jnum 0),
     ("uvStatus", JsonValue.jstr "Error"),
     ("defects", JsonValue.jarr []),
     ("suggestedFix", JsonValue.jstr "Reposition for better lighting")]

/-- The `try` block of `analyzeFrame`: awaiting the external call and parsing
`response.text || "{}"`. `Except.error` marks any exception that the `catch`
will absorb (the call throwing/rejecting, or `JSON.parse` throwing). -/
def analyzeFrameTry (parse : String → Option JsonValue) :
    CallOutcome → Except Unit JsonValue
  | CallOutcome.throws => Except.error ()
  | CallOutcome.success t =>
    match parse (responseBody t) with
    | some v => Except.ok v
    | none => Except.error ()

/-- `analyzeFrame` from `src/services/geminiService.ts`: the `try` block with
its `catch` branch returning `sceneDefault`. Totality of this function is the
source's guarantee that the promise always resolves. -/
def analyzeFrame (parse : String → Option JsonValue) (o : CallOutcome) :
    JsonValue :=
  match analyzeFrameTry parse o with
  | Except.ok v => v
  | Except.error _ => sceneDefault

/-- The `try` block of `analyzeTopology` (same structure as
`analyzeFrameTry`; only the prompt text, which does not affect control flow,
differs in the source). -/
def analyzeTopologyTry (parse : String → Option JsonValue) :
    CallOutcome → Except Unit JsonValue
  | CallOutcome.throws => Except.error ()
  | CallOutcome.success t =>
    match parse (responseBody t) with
    | some v => Except.ok v
    | none => Except.error ()

/-- `analyzeTopology` from `src/services/geminiService.ts`: the `try` block
with its `catch` branch returning `topologyDefault`. -/
def analyzeTopology (parse : String → Option JsonValue) (o : CallOutcome) :
    JsonValue :=
  match analyzeTopologyTry parse o with
  | Except.ok v => v
  | Except.error _ => topologyDefault

/-- A concrete `JSON.parse` behaviour used to instantiate theorems: it parses
exactly the text `"{}"` (to the empty object) and fails on everything else. -/
def witnessParse : String → Option JsonValue :=
  fun s => if s = emptyObjText then some (JsonValue.jobj []) else none

/-- C1. For every behaviour of the external call, `analyzeFrame` and
`analyzeTopology` resolve (they are total functions of the modelled outcome);
whenever the request throws/rejects, or the response body fails to parse as
JSON, they resolve with exactly the kind-specific defaults
`sceneDefault` and `topologyDefault`. -/
theorem analyze_failure_returns_defaults
    (parse : String → Option JsonValue) (o : CallOutcome)
    (h : o = CallOutcome.throws ∨
      ∃ t, o = CallOutcome.success t ∧ parse (responseBody t) = none) :
    analyzeFrame parse o = sceneDefault ∧
    analyzeTopology parse o = topologyDefault := by
  rcases h with h | ⟨t, rfl, hp⟩
  · subst h
    exact ⟨rfl, rfl⟩
  · constructor
    · simp [analyzeFrame, analyzeFrameTry, hp]
    · simp [analyzeTopology, analyzeTopologyTry, hp]

/-- Witness for C1 at a concrete failing behaviour. -/
theorem analyze_failure_returns_defaults_witness :
    analyzeFrame witnessParse CallOutcome.throws = sceneDefault ∧
    analyzeTopology witnessParse CallOutcome.throws = topologyDefault :=
  analyze_failure_returns_defaults witnessParse CallOutcome.throws (Or.inl rfl)

/-- C3. When the external request succeeds and the body is `"{}"` (the
response text being absent or empty also yields the body `"{}"`), both
functions resolve with the parsed empty object: every field lookup on the
result is absent, and no kind-specific default is merged in (the result
differs from both default objects). The hypothesis pins down the platform
fact `JSON.parse "{}" = {}`. -/
theorem analyze_empty_success_no_default_merge
    (parse : String → Option JsonValue)
    (hp : parse emptyObjText = some (JsonValue.jobj [])) :
    analyzeFrame parse (CallOutcome.success none) = JsonValue.jobj [] ∧
    analyzeFrame parse (CallOutcome.success (some "")) = JsonValue.jobj [] ∧
    analyzeFrame parse (CallOutcome.success (some emptyObjText)) =
      JsonValue.jobj [] ∧
    analyzeTopology parse (CallOutcome.success none) = JsonValue.jobj [] ∧
    analyzeTopology parse (CallOutcome.success (some "")) =
      JsonValue.jobj [] ∧
    analyzeTopology parse (CallOutcome.success (some emptyObjText)) =
      JsonValue.jobj [] ∧
    (∀ k, jfield (JsonValue.jobj []) k = none) ∧
    JsonValue.jobj [] ≠ sceneDefault ∧
    JsonValue.jobj [] ≠ topologyDefault := by
  have hbody : responseBody (some emptyObjText) = emptyObjText := by
    simp [responseBody, emptyObjText]
  refine ⟨?_, ?_, ?_, ?_, ?_, ?_, ?_, ?_, ?_⟩
  · simp [analyzeFrame, analyzeFrameTry, responseBody, hp]
  · simp [analyzeFrame, analyzeFrameTry, responseBody, hp]
  · simp [analyzeFrame, analyzeFrameTry, hbody, hp]
  · simp [analyzeTopology, analyzeTopologyTry, responseBody, hp]
  · simp [analyzeTopology, analyzeTopologyTry, responseBody, hp]
  · simp [analyzeTopology, analyzeTopologyTry, hbody, hp]
  · intro k
    simp [jfield]
  · intro h
    simp [sceneDefault] at h
  · intro h
    simp [topologyDefault] at h

/-- Witness for C3 at the concrete parse behaviour `witnessParse`. -/
theorem analyze_empty_success_no_default_merge_witness :
    analyzeFrame witnessParse (CallOutcome.success none) =
      JsonValue.jobj [] ∧
    analyzeTopology witnessParse (CallOutcome.success (some "")) =
      JsonValue.jobj [] :=
  ⟨(analyze_empty_success_no_default_merge witnessParse
      (by simp [witnessParse])).1,
   (analyze_empty_success_no_default_merge witnessParse
      (by simp [witnessParse])).2.2.2.2.1⟩

/-! ## Frame processor (`src/App.tsx`) -/

/-- The LUT selector of `CameraSettings.lut` (`src/types.ts`). -/
inductive Lut where
  | none
  | logC
  | cineTeal
  | vintage
deriving DecidableEq, Repr

/-- `CameraSettings` from `src/types.ts`. -/
structure CameraSettings where
  exposure : ℚ
  brightness : ℚ
  contrast : ℚ
  saturation : ℚ
  iso : ℚ
  shutterSpeed : String
  whiteBalance : ℚ
  stabilization : Bool
  upscale : Bool
  hdr : Bool
  bokeh : ℚ
  glow : ℚ
  lut : Lut
deriving DecidableEq, Repr

/-- `INITIAL_SETTINGS` from `src/App.tsx` lines 31-45. -/
def initialSettings : CameraSettings :=
  { exposure := 0, brightness := 100, contrast := 100, saturation := 100,
    iso := 800, shutterSpeed := "1/48", whiteBalance := 5600,
    stabilization := true, upscale := true, hdr := true,
    bokeh := 0, glow := 10, lut := Lut.none }

/-- Display mode of `src/App.tsx` line 49. -/
inductive Mode where
  | camera
  | scan
  | relief
deriving DecidableEq, Repr

/-- One primitive of a canvas `filter` string. -/
inductive FilterOp where
  | brightness (pct : ℚ)
  | contrast (pct : ℚ)
  | saturate (pct : ℚ)
  | blur (px : ℚ)
  | hueRotate (deg : ℚ)
  | sepia (pct : ℚ)
deriving DecidableEq, Repr

/-- The filter list built by `src/App.tsx` lines 161-163: the base
brightness/contrast/saturation/blur filter with the LUT-dependent suffixes. -/
def buildFilters (s : CameraSettings) : List FilterOp :=
  let base := [FilterOp.brightness s.brightness, FilterOp.contrast s.contrast,
    FilterOp.saturate s.saturation, FilterOp.blur (s.bokeh / 40)]
  let f1 := if s.lut = Lut.cineTeal
    then base ++ [FilterOp.hueRotate 180, FilterOp.saturate 130] else base
  if s.lut = Lut.vintage
    then f1 ++ [FilterOp.sepia 40, FilterOp.contrast 90, FilterOp.brightness 95]
    else f1

/-- A `globalCompositeOperation` value used by the pipeline. -/
inductive CompOp where
  | sourceOver
  | screen
deriving DecidableEq, Repr

/-- One canvas-context call issued by `processFrame`; an invocation is
recorded as the list of these calls in program order. -/
inductive DrawOp where
  | setFilter (fs : List FilterOp)
  | setComposite (c : CompOp)
  | setAlpha (a : ℚ)
  | drawVideo (w h : ℕ)
  | drawCanvas
  | getImage (w h : ℕ)
  | setFillStyle (c : String)
  | fillRect (x y w h : ℚ)
  | setStrokeStyle (c : String)
  | setLineWidth (q : ℚ)
  | beginPath
  | moveTo (x y : ℚ)
  | lineTo (x y : ℚ)
  | strokePath
  | setHistogramData
deriving DecidableEq, Repr

/-- The indices visited by `for (let i = 0; i < n; i += stride)`. -/
def strideIdxs (stride n : ℕ) : List ℕ :=
  (List.range ((n + stride - 1) / stride)).map (fun i => i * stride)

/-- The `brightness` local of the relief loop (`src/App.tsx` line 153):
average of the three colour channels of the flat image-data array at grid
point `(x, y)` of a `w`-wide frame. -/
def luminanceAt (data : ℕ → ℚ) (w x y : ℕ) : ℚ :=
  (data ((y * w + x) * 4) + data ((y * w + x) * 4 + 1) +
    data ((y * w + x) * 4 + 2)) / 3

/-- The `offset` local of the relief loop (`src/App.tsx` line 154):
`(brightness / 255) * -40`, the vertical displacement of the sampled point. -/
def reliefOffset (data : ℕ → ℚ) (w x y : ℕ) : ℚ :=
  (luminanceAt data w x y / 255) * (-40)

/-- One scan row of the relief wireframe (`src/App.tsx` lines 150-158). -/
def reliefRowOps (data : ℕ → ℚ) (w y : ℕ) : List DrawOp :=
  [DrawOp.beginPath] ++
  (strideIdxs 20 w).map (fun (x : ℕ) =>
    if x = 0 then DrawOp.moveTo (x : ℚ) ((y : ℚ) + reliefOffset data w x y)
    else DrawOp.lineTo (x : ℚ) ((y : ℚ) + reliefOffset data w x y)) ++
  [DrawOp.strokePath]

/-- The relief-mode branch (`src/App.tsx` lines 138-159). -/
def reliefOps (data : ℕ → ℚ) (w h : ℕ) : List DrawOp :=
  [DrawOp.drawVideo w h, DrawOp.getImage w h,
   DrawOp.setFillStyle "#0a0a0a", DrawOp.fillRect 0 0 (w : ℚ) (h : ℚ),
   DrawOp.setStrokeStyle "#22d3ee", DrawOp.setLineWidth 1] ++
  ((strideIdxs 20 h).map (reliefRowOps data w)).flatten

/-- The base cinematic grade (`src/App.tsx` lines 165-166). -/
def cameraBaseOps (s : CameraSettings) (w h : ℕ) : List DrawOp :=
  [DrawOp.setFilter (buildFilters s), DrawOp.drawVideo w h]

/-- The glow/bloom pass (`src/App.tsx` lines 168-175), executed only when
`settings.glow > 0`. -/
def glowOps (s : CameraSettings) : List DrawOp :=
  if s.glow > 0 then
    [DrawOp.setAlpha (s.glow / 150), DrawOp.setComposite CompOp.screen,
     DrawOp.setFilter [FilterOp.blur (s.glow * 0.8), FilterOp.brightness 140],
     DrawOp.drawCanvas, DrawOp.setComposite CompOp.sourceOver,
     DrawOp.setAlpha 1]
  else []

/-- The scan-grid overlay (`src/App.tsx` lines 177-191); `rands` supplies the
30 pairs of `Math.random()` results. -/
def scanGridOps (w h : ℕ) (rands : ℕ → ℚ × ℚ) : List DrawOp :=
  [DrawOp.setStrokeStyle "rgba(34, 211, 238, 0.4)", DrawOp.setLineWidth 0.5,
   DrawOp.beginPath] ++
  ((strideIdxs 60 w).map (fun i =>
    [DrawOp.moveTo (i : ℚ) 0, DrawOp.lineTo (i : ℚ) (h : ℚ)])).flatten ++
  ((strideIdxs 60 h).map (fun i =>
    [DrawOp.moveTo 0 (i : ℚ), DrawOp.lineTo (w : ℚ) (i : ℚ)])).flatten ++
  [DrawOp.strokePath, DrawOp.setFillStyle "#22d3ee"] ++
  (List.range 30).map (fun i =>
    DrawOp.fillRect ((⌊(rands i).1 * w⌋ : ℤ) : ℚ) ((⌊(rands i).2 * h⌋ : ℤ) : ℚ)
      3 3)

/-- The context reset (`src/App.tsx` lines 135-136). -/
def resetOps : List DrawOp :=
  [DrawOp.setFilter [], DrawOp.setComposite CompOp.sourceOver]

/-- The histogram update (`src/App.tsx` lines 194-196), taken when the drawn
`Math.random()` value exceeds 0.85. -/
def histOps (histRand : ℚ) : List DrawOp :=
  if histRand > 0.85 then [DrawOp.setHistogramData] else []

/-- The environment one `processFrame` invocation observes: presence of the
video/canvas refs, the video's `readyState`, whether `getContext` succeeds,
the canvas dimensions, the image data the relief branch reads back, and the
`Math.random()` draws. -/
structure FrameEnv where
  hasVideo : Bool
  hasCanvas : Bool
  readyState : ℕ
  ctxOk : Bool
  width : ℕ
  height : ℕ
  frameData : ℕ → ℚ
  histRand : ℚ
  scanRands : ℕ → ℚ × ℚ

/-- The canvas calls of one `processFrame` invocation (`src/App.tsx` lines
129-198): nothing is drawn unless both refs are set and `readyState === 4`,
and nothing is drawn when `getContext` returns null. -/
def processFrameOps (env : FrameEnv) (s : CameraSettings) (m : Mode) :
    List DrawOp :=
  if env.hasVideo && env.hasCanvas && (env.readyState == 4) then
    if env.ctxOk then
      resetOps ++
      (match m with
       | Mode.relief => reliefOps env.frameData env.width env.height
       | Mode.camera => cameraBaseOps s env.width env.height ++ glowOps s
       | Mode.scan => cameraBaseOps s env.width env.height ++ glowOps s ++
           scanGridOps env.width env.height env.scanRands) ++
      histOps env.histRand
    else []
  else []

/-- One full `processFrame` invocation: its canvas calls together with the
number of `requestAnimationFrame` calls it issues (`src/App.tsx` line 199 is
reached unconditionally, so that count is always 1). -/
def processFrame (env : FrameEnv) (s : CameraSettings) (m : Mode) :
    List DrawOp × ℕ :=
  (processFrameOps env s m, 1)

/-! ### Pixel semantics of the glow pass

The glow pass draws a blurred, brightened copy of the canvas onto itself with
`globalCompositeOperation = 'screen'` and `globalAlpha = glow / 150`. Per the
canvas compositing specification, for opaque pixels on the normalized scale
`[0, 1]` the `screen` blend is `B(cb, cs) = cb + cs - cb * cs` and the
`globalAlpha`-weighted composite is `(1 - a) * cb + a * B(cb, cs)`. -/

/-- `screen` blending of backdrop `cb` with source `cs` at source alpha `a`
(canvas compositing semantics, normalized channel values). -/
def screenComposite (a cb cs : ℚ) : ℚ :=
  (1 - a) * cb + a * (cb + cs - cb * cs)

/-- One channel of one pixel after the glow pass of `src/App.tsx` lines
168-175: `base` is the channel value the base grade wrote, `src` is the value
of the blurred-and-brightened copy of the canvas at this pixel, and the pass
runs only when `glow > 0` with alpha `glow / 150`. -/
def glowStage (glow base src : ℚ) : ℚ :=
  if glow > 0 then screenComposite (glow / 150) base src else base

/-- Modelled from the spec: the camera pipeline with only the base grade
applied and no glow pass, the comparison object for the glow-is-a-no-op
claim. -/
def baseGradeOnlyOps (env : FrameEnv) (s : CameraSettings) : List DrawOp :=
  if env.hasVideo && env.hasCanvas && (env.readyState == 4) then
    if env.ctxOk then
      resetOps ++ cameraBaseOps s env.width env.height ++ histOps env.histRand
    else []
  else []

/-! ### Canvas / video dimensions (`initCamera`, `src/App.tsx` lines 62-99)

The canvas element is mounted with the explicit JSX attributes
`width={1920} height={1080}` (`src/App.tsx` lines 272-277), so its bitmap is
1920 x 1080 from mount. The primary initialization path's `onloadedmetadata`
handler (lines 76-82) copies the video's native dimensions onto the canvas;
the fallback path's handler (line 93) only starts playback and leaves the
canvas dimensions untouched. `processFrame` reads
`canvasRef.current.width/height` (line 133) and never writes them. -/

/-- The dimension-relevant state of the mounted component. -/
structure CamState where
  canvasW : ℕ
  canvasH : ℕ
  videoW : ℕ
  videoH : ℕ
  metadataKnown : Bool
deriving DecidableEq, Repr

/-- The state before any metadata arrives: the canvas at the 1920 x 1080 set
by its JSX `width`/`height` attributes (`src/App.tsx` lines 274-275), video
resolution unknown. -/
def initialCamState : CamState :=
  { canvasW := 1920, canvasH := 1080, videoW := 0, videoH := 0,
    metadataKnown := false }

/-- Effect of the primary path's `onloadedmetadata` handler (`src/App.tsx`
lines 76-82): the native resolution becomes known and the canvas is resized
to it. -/
def primaryMetadataLoaded (st : CamState) (vw vh : ℕ) : CamState :=
  { st with
    videoW := vw, videoH := vh, canvasW := vw, canvasH := vh,
    metadataKnown := true }

/-- Effect of the fallback path's `onloadedmetadata` handler (`src/App.tsx`
line 93): the native resolution becomes known but the canvas keeps its
previous dimensions. -/
def fallbackMetadataLoaded (st : CamState) (vw vh : ℕ) : CamState :=
  { st with videoW := vw, videoH := vh, metadataKnown := true }

/-- The environment `processFrame` observes when both refs are live, the
video is decoded, and the context is available, at the canvas dimensions of
`st`. -/
def envOfCam (st : CamState) (data : ℕ → ℚ) (hr : ℚ) (sr : ℕ → ℚ × ℚ) :
    FrameEnv :=
  { hasVideo := true, hasCanvas := true, readyState := 4, ctxOk := true,
    width := st.canvasW, height := st.canvasH, frameData := data,
    histRand := hr, scanRands := sr }

/-- Constant-zero image data (a uniformly black frame). -/
def blackData : ℕ → ℚ := fun _ => 0

/-- Constant-255 image data (a uniformly white frame). -/
def whiteData : ℕ → ℚ := fun _ => 255

/-- A fixed sequence of `Math.random()` pairs for the scan overlay. -/
def zeroRands : ℕ → ℚ × ℚ := fun _ => (0, 0)

/-! ### Scheduling and teardown (`src/App.tsx` lines 101-109, 199, 202-205)

`processFrame` issues exactly one `requestAnimationFrame` per invocation
(line 199), and an invocation only runs by consuming the one pending
callback, so the number of pending callbacks is an invariant. On unmount the
mount effect's cleanup (lines 103-108) stops every track of the attached
stream once, and the scheduling effect's cleanup (line 204) cancels the
pending callback. -/

/-- Scheduler/resource state: per-track `stop()` call counts for the attached
stream, and whether an animation-frame callback is pending. -/
structure SysState where
  trackStops : List ℕ
  pending : Bool
deriving DecidableEq, Repr

/-- Cleanup of the mount effect (`src/App.tsx` lines 103-108):
`stream.getTracks().forEach(track => track.stop())`. -/
def cleanupCameraEffect (st : SysState) : SysState :=
  { st with trackStops := st.trackStops.map (fun c => c + 1) }

/-- Cleanup of the scheduling effect (`src/App.tsx` line 204):
`cancelAnimationFrame(requestRef.current)`. -/
def cleanupFrameEffect (st : SysState) : SysState :=
  { st with pending := false }

/-- Component teardown: both effect cleanups run. -/
def teardown (st : SysState) : SysState :=
  cleanupFrameEffect (cleanupCameraEffect st)

/-- One `processFrame` invocation at the scheduler level: it can only run by
consuming the pending callback, and it reschedules exactly once (line 199),
leaving one callback pending again. `none` means no invocation can occur. -/
def fireFrame (st : SysState) : Option SysState :=
  if st.pending then some { st with pending := true } else none

/-- `n` consecutive invocation attempts. -/
def fireMany : ℕ → SysState → Option SysState
  | 0, st => some st
  | n + 1, st => (fireFrame st).bind (fireMany n)

/-- Number of pending animation-frame callbacks after `n` completed
`processFrame` cycles, starting from the single callback scheduled by the
mount of the scheduling effect (line 203): each cycle consumes its own
callback and schedules `(processFrame env s m).2` new ones. -/
def pendingCycles (env : FrameEnv) (s : CameraSettings) (m : Mode) :
    ℕ → ℕ
  | 0 => 1
  | n + 1 => pendingCycles env s m n - 1 + (processFrame env s m).2

/-! ## Theorems about the frame processor -/

/-- A ready environment with a not-yet-decoded source (`readyState = 1`). -/
def notReadyEnv : FrameEnv :=
  { hasVideo := true, hasCanvas := true, readyState := 1, ctxOk := true,
    width := 640, height := 480, frameData := blackData, histRand := 0,
    scanRands := zeroRands }

/-- A fully ready 640 x 480 environment over a black frame. -/
def readyEnv : FrameEnv :=
  { hasVideo := true, hasCanvas := true, readyState := 4, ctxOk := true,
    width := 640, height := 480, frameData := blackData, histRand := 0,
    scanRands := zeroRands }

/-- The state left by the fallback initialization path receiving a 640x480
stream while the canvas still has the 1920x1080 set by its JSX attributes. -/
def staleCamState : CamState := fallbackMetadataLoaded initialCamState 640 480

/-- C4. Every `processFrame` invocation schedules exactly one successor
(`requestAnimationFrame` count is 1 in every case); when the video or canvas
ref is missing or the source frame is not fully decoded, no drawing operation
is issued; and the number of pending frame callbacks is always exactly one,
so cycles are strictly sequential and never overlap. -/
theorem processFrame_silent_skip_single_reschedule :
    (∀ env s m, (processFrame env s m).2 = 1) ∧
    (∀ env s m,
      ¬ (env.hasVideo && env.hasCanvas && (env.readyState == 4)) = true →
      (processFrame env s m).1 = []) ∧
    (∀ env s m n, pendingCycles env s m n = 1) := by
  refine ⟨fun env s m => rfl, fun env s m h => ?_, fun env s m n => ?_⟩
  · simp only [processFrame, processFrameOps]
    rw [if_neg h]
  · induction n with
    | zero => rfl
    | succ k ih => simp [pendingCycles, ih, processFrame]

/-- Witness for C4: a not-yet-decoded source is skipped silently while still
rescheduling once, and the pending-callback count stays 1. -/
theorem processFrame_silent_skip_single_reschedule_witness :
    (processFrame notReadyEnv initialSettings Mode.camera).1 = [] ∧
    (processFrame notReadyEnv initialSettings Mode.camera).2 = 1 ∧
    pendingCycles notReadyEnv initialSettings Mode.camera 5 = 1 :=
  ⟨processFrame_silent_skip_single_reschedule.2.1 notReadyEnv initialSettings
      Mode.camera (by decide),
   processFrame_silent_skip_single_reschedule.1 notReadyEnv initialSettings
      Mode.camera,
   processFrame_silent_skip_single_reschedule.2.2 notReadyEnv initialSettings
      Mode.camera 5⟩

/-- C7. The base grade is one combined filter taking the brightness, contrast
and saturation percentages directly from the settings with no clamping, with
blur radius `bokeh / 40`; the `cine-teal` selector appends a fixed hue
rotation plus saturation boost, the `vintage` selector appends a fixed sepia
desaturation plus contrast/brightness shift, and the default selector appends
nothing. -/
theorem base_grade_filter_construction (s : CameraSettings) :
    buildFilters { s with lut := Lut.none } =
      [FilterOp.brightness s.brightness, FilterOp.contrast s.contrast,
       FilterOp.saturate s.saturation, FilterOp.blur (s.bokeh / 40)] ∧
    buildFilters { s with lut := Lut.cineTeal } =
      [FilterOp.brightness s.brightness, FilterOp.contrast s.contrast,
       FilterOp.saturate s.saturation, FilterOp.blur (s.bokeh / 40),
       FilterOp.hueRotate 180, FilterOp.saturate 130] ∧
    buildFilters { s with lut := Lut.vintage } =
      [FilterOp.brightness s.brightness, FilterOp.contrast s.contrast,
       FilterOp.saturate s.saturation, FilterOp.blur (s.bokeh / 40),
       FilterOp.sepia 40, FilterOp.contrast 90, FilterOp.brightness 95] :=
  ⟨rfl, rfl, rfl⟩

/-- C10. Selecting `log-c` is exactly equivalent to selecting `none`: with all
other settings, the mode and the frame fixed, the filter list and the whole
invocation trace coincide. -/
theorem lut_logc_equiv_none (s : CameraSettings) :
    buildFilters { s with lut := Lut.logC } =
      buildFilters { s with lut := Lut.none } ∧
    ∀ env m, processFrame env { s with lut := Lut.logC } m =
      processFrame env { s with lut := Lut.none } m :=
  ⟨rfl, fun _ _ => rfl⟩

/-- C9. Two settings snapshots agreeing on brightness, contrast, saturation,
bokeh, glow and lut produce identical invocation traces for every
environment and mode: exposure, iso, shutterSpeed, whiteBalance,
stabilization, upscale and hdr have no effect on the rendered frame. -/
theorem hidden_settings_noninterference (s₁ s₂ : CameraSettings)
    (hb : s₁.brightness = s₂.brightness) (hc : s₁.contrast = s₂.contrast)
    (hsat : s₁.saturation = s₂.saturation) (hbo : s₁.bokeh = s₂.bokeh)
    (hg : s₁.glow = s₂.glow) (hl : s₁.lut = s₂.lut) :
    ∀ env m, processFrame env s₁ m = processFrame env s₂ m := by
  intro env m
  have hbf : buildFilters s₁ = buildFilters s₂ := by
    simp [buildFilters, hb, hc, hsat, hbo, hl]
  have hgo : glowOps s₁ = glowOps s₂ := by
    simp [glowOps, hg]
  have hcb : ∀ w h, cameraBaseOps s₁ w h = cameraBaseOps s₂ w h := by
    intro w h
    simp [cameraBaseOps, hbf]
  cases m <;> simp [processFrame, processFrameOps, hgo, hcb]

/-- A settings snapshot that differs from `initialSettings` in every field the
pipeline is claimed to ignore. -/
def contrastingSettings : CameraSettings :=
  { exposure := 2, brightness := 100, contrast := 100, saturation := 100,
    iso := 12800, shutterSpeed := "1/1000", whiteBalance := 2800,
    stabilization := false, upscale := false, hdr := false,
    bokeh := 0, glow := 10, lut := Lut.none }

/-- Witness for C9 at two concrete snapshots differing in all seven ignored
fields. -/
theorem hidden_settings_noninterference_witness :
    processFrame readyEnv initialSettings Mode.camera =
      processFrame readyEnv contrastingSettings Mode.camera :=
  hidden_settings_noninterference initialSettings contrastingSettings
    rfl rfl rfl rfl rfl rfl readyEnv Mode.camera

/-- C6. In the relief wireframe pipeline the vertical offset of each sampled
grid point is `-(40 * luminance / 255)` (an upward displacement of
`luminance / 255` times the fixed maximum 40, luminance being the average of
the three colour channels): it is 0 at every point of a uniformly black
frame, and the full magnitude 40 at every point of a uniformly white frame,
as the emitted scan-row operations show. -/
theorem relief_displacement_luminance (data : ℕ → ℚ) (w x y : ℕ) :
    reliefOffset data w x y = -(40 * (luminanceAt data w x y / 255)) ∧
    reliefOffset blackData w x y = 0 ∧
    reliefOffset whiteData w x y = -40 ∧
    reliefRowOps blackData w y =
      [DrawOp.beginPath] ++
      (strideIdxs 20 w).map (fun (x : ℕ) =>
        if x = 0 then DrawOp.moveTo (x : ℚ) (y : ℚ)
        else DrawOp.lineTo (x : ℚ) (y : ℚ)) ++ [DrawOp.strokePath] ∧
    reliefRowOps whiteData w y =
      [DrawOp.beginPath] ++
      (strideIdxs 20 w).map (fun (x : ℕ) =>
        if x = 0 then DrawOp.moveTo (x : ℚ) ((y : ℚ) - 40)
        else DrawOp.lineTo (x : ℚ) ((y : ℚ) - 40)) ++ [DrawOp.strokePath] := by
  have hblack : ∀ x y : ℕ, reliefOffset blackData w x y = 0 := by
    intro x y
    simp [reliefOffset, luminanceAt, blackData]
  have hwhite : ∀ x y : ℕ, reliefOffset whiteData w x y = -40 := by
    intro x y
    simp [reliefOffset, luminanceAt, whiteData]
    norm_num
  refine ⟨?_, hblack x y, hwhite x y, ?_, ?_⟩
  · simp [reliefOffset]
    ring
  · simp only [reliefRowOps]
    congr 1
    congr 1
    apply List.map_congr_left
    intro a _
    rw [hblack a y, add_zero]
  · simp only [reliefRowOps]
    congr 1
    congr 1
    apply List.map_congr_left
    intro a _
    rw [hwhite a y]
    ring_nf

/-- C5. With glow strength 0 the glow pass is skipped and the camera-mode
trace is exactly the base-grade-only trace; at pixel level the pass at
strength 0 is the identity, and any strength above 0 strictly increases the
composited value at every affected pixel (blurred source positive, base below
full scale). -/
theorem glow_zero_noop_pos_brightens :
    (∀ s : CameraSettings, s.glow = 0 → glowOps s = []) ∧
    (∀ env s, s.glow = 0 →
      processFrameOps env s Mode.camera = baseGradeOnlyOps env s) ∧
    (∀ base src : ℚ, glowStage 0 base src = base) ∧
    (∀ g base src : ℚ, 0 < g → 0 < src → base < 1 →
      glowStage 0 base src < glowStage g base src) := by
  have hskip : ∀ s : CameraSettings, s.glow = 0 → glowOps s = [] := by
    intro s h
    simp [glowOps, h]
  refine ⟨hskip, ?_, ?_, ?_⟩
  · intro env s h
    simp [processFrameOps, baseGradeOnlyOps, hskip s h]
  · intro base src
    simp [glowStage]
  · intro g base src hg hsrc hbase
    have ha : 0 < g / 150 := by positivity
    have key : 0 < g / 150 * (src * (1 - base)) :=
      mul_pos ha (mul_pos hsrc (by linarith))
    have hrw : screenComposite (g / 150) base src =
        base + g / 150 * (src * (1 - base)) := by
      unfold screenComposite
      ring
    simp only [glowStage, if_pos hg, if_neg (lt_irrefl (0 : ℚ)), hrw]
    linarith

/-- Witness for C5: glow 0 empties the pass and leaves the trace at the
base grade; glow 10 strictly brightens a half-lit pixel. -/
theorem glow_zero_noop_pos_brightens_witness :
    glowOps { initialSettings with glow := 0 } = [] ∧
    processFrameOps readyEnv { initialSettings with glow := 0 } Mode.camera =
      baseGradeOnlyOps readyEnv { initialSettings with glow := 0 } ∧
    glowStage 0 (1/2) (1/2) < glowStage 10 (1/2) (1/2) :=
  ⟨glow_zero_noop_pos_brightens.1 { initialSettings with glow := 0 } rfl,
   glow_zero_noop_pos_brightens.2.1 readyEnv
     { initialSettings with glow := 0 } rfl,
   glow_zero_noop_pos_brightens.2.2.2 10 (1/2) (1/2) (by norm_num)
     (by norm_num) (by norm_num)⟩

/-- C8. Teardown stops every active track of the attached stream exactly once
(each per-track stop count goes from 0 to 1, no track added or lost) and
cancels the pending frame callback, after which no further `processFrame`
invocation can ever occur. -/
theorem teardown_stops_tracks_cancels_loop (st : SysState)
    (h : ∀ c ∈ st.trackStops, c = 0) :
    (∀ c ∈ (teardown st).trackStops, c = 1) ∧
    (teardown st).trackStops.length = st.trackStops.length ∧
    (teardown st).pending = false ∧
    (∀ n, fireMany (n + 1) (teardown st) = none) := by
  refine ⟨?_, ?_, rfl, ?_⟩
  · intro c hc
    simp only [teardown, cleanupFrameEffect, cleanupCameraEffect,
      List.mem_map] at hc
    obtain ⟨a, ha, rfl⟩ := hc
    rw [h a ha]
  · simp [teardown, cleanupFrameEffect, cleanupCameraEffect]
  · intro n
    simp [fireMany, fireFrame, teardown, cleanupFrameEffect]

/-- Witness for C8 on a two-track stream with a pending callback. -/
theorem teardown_stops_tracks_cancels_loop_witness :
    (∀ c ∈ (teardown { trackStops := [0, 0], pending := true }).trackStops,
      c = 1) ∧
    (teardown { trackStops := [0, 0], pending := true }).pending = false ∧
    fireMany 1 (teardown { trackStops := [0, 0], pending := true }) = none :=
  ⟨(teardown_stops_tracks_cancels_loop _ (by decide)).1,
   (teardown_stops_tracks_cancels_loop _ (by decide)).2.2.1,
   (teardown_stops_tracks_cancels_loop _ (by decide)).2.2.2 0⟩

/-- C2 as stated is false: after the fallback initialization path delivers a
640x480 stream, the resolution is known but the canvas keeps the 1920x1080
set by its JSX attributes and the processor draws the video at 1920x1080,
never at the native 640x480 — there is no resize-on-change stage in
`processFrame`. -/
theorem canvas_dims_claim_counterexample :
    staleCamState.metadataKnown = true ∧
    staleCamState.videoW = 640 ∧ staleCamState.videoH = 480 ∧
    staleCamState.canvasW = 1920 ∧ staleCamState.canvasH = 1080 ∧
    DrawOp.drawVideo 1920 1080 ∈
      processFrameOps (envOfCam staleCamState blackData 0 zeroRands)
        initialSettings Mode.camera ∧
    DrawOp.drawVideo 640 480 ∉
      processFrameOps (envOfCam staleCamState blackData 0 zeroRands)
        initialSettings Mode.camera := by
  refine ⟨rfl, rfl, rfl, rfl, rfl, by decide, ?_⟩
  norm_num [processFrameOps, envOfCam, staleCamState, fallbackMetadataLoaded,
    initialCamState, resetOps, cameraBaseOps, glowOps, histOps,
    initialSettings, buildFilters]
  decide

/-- C2 amended. The canvas is sized to the source's native resolution only by
the primary initialization path's metadata handler; the fallback path leaves
the canvas dimensions unchanged, and `processFrame` always draws at the
canvas's current dimensions (so immediately after a primary-path metadata
load it draws at the native resolution, but nothing re-syncs the dimensions
afterwards). -/
theorem canvas_dims_primary_resize_only (st : CamState) (vw vh : ℕ)
    (s : CameraSettings) (data : ℕ → ℚ) (hr : ℚ) (sr : ℕ → ℚ × ℚ) :
    (primaryMetadataLoaded st vw vh).canvasW = vw ∧
    (primaryMetadataLoaded st vw vh).canvasH = vh ∧
    (fallbackMetadataLoaded st vw vh).canvasW = st.canvasW ∧
    (fallbackMetadataLoaded st vw vh).canvasH = st.canvasH ∧
    DrawOp.drawVideo st.canvasW st.canvasH ∈
      processFrameOps (envOfCam st data hr sr) s Mode.camera ∧
    DrawOp.drawVideo (primaryMetadataLoaded st vw vh).canvasW
        (primaryMetadataLoaded st vw vh).canvasH ∈
      processFrameOps (envOfCam (primaryMetadataLoaded st vw vh) data hr sr)
        s Mode.camera := by
  refine ⟨rfl, rfl, rfl, rfl, ?_, ?_⟩ <;>
    simp [processFrameOps, envOfCam, resetOps, cameraBaseOps,
      primaryMetadataLoaded, List.mem_append]

end CamTcas
